import Mathlib

/-!
Verification of the session lifecycle middleware (src/types.ts, runtime
middleware part) of the nuxt-session repository.

Modelling choices, all taken from the source:
* A JavaScript object is modelled as an insertion-ordered association list
  `Sess := List (String × JVal)` (JSON.stringify serializes keys in
  insertion order, so order must be kept).
* `Date` values are modelled by their millisecond timestamp; their
  JSON.stringify form is the ISO-8601 string produced by toISOString.
* The `hash` function of the source is sha1(JSON.stringify(session)) in
  hex; SHA-1 is implemented here over the UTF-8 bytes, with 32-bit words
  as `Nat` reduced mod 2^32.
* Time and generated ids (nanoid) are oracle inputs to the pipeline.
-/

/-- JSON-style values stored in a session object (flat payloads suffice for
the middleware's behaviour; nested objects never influence the lifecycle). -/
inductive JVal where
  | str (s : String)
  | num (n : Int)
  | boolean (b : Bool)
  | date (ms : Nat)
deriving DecidableEq, Repr

/-- A JavaScript object: insertion-ordered key/value list. -/
abbrev Sess := List (String × JVal)

/-- Property read `o[k]` on a JS object. -/
def lookupKey : Sess → String → Option JVal
  | [], _ => none
  | (k1, v1) :: t, k => if k1 = k then some v1 else lookupKey t k

/-- Property write `o[k] = v` on a JS object: updates the key in place if
present (keeping its position), otherwise appends it. -/
def setKey : Sess → String → JVal → Sess
  | [], k, v => [(k, v)]
  | (k1, v1) :: t, k, v => if k1 = k then (k1, v) :: t else (k1, v1) :: setKey t k v

/-- `'k' in o`. -/
def hasKey (s : Sess) (k : String) : Bool := (lookupKey s k).isSome

/-- Two objects are equal as key/value maps (ignoring key order). -/
def eqAsMaps (a b : Sess) : Bool :=
  (a.map Prod.fst ++ b.map Prod.fst).all (fun k => lookupKey a k == lookupKey b k)

/-- Days since 1970-01-01 to civil (year, month, day); standard
days-from-civil inverse used by every calendar library. -/
def civilFromDays (days : Nat) : Nat × Nat × Nat :=
  let z := days + 719468
  let era := z / 146097
  let doe := z % 146097
  let yoe := (doe - doe / 1460 + doe / 36524 - doe / 146096) / 365
  let y := yoe + era * 400
  let doy := doe - (365 * yoe + yoe / 4 - yoe / 100)
  let mp := (5 * doy + 2) / 153
  let d := doy - (153 * mp + 2) / 5 + 1
  let m := if mp < 10 then mp + 3 else mp - 9
  (if m ≤ 2 then y + 1 else y, m, d)

def pad2 (n : Nat) : String := if n < 10 then "0" ++ toString n else toString n

def pad3 (n : Nat) : String :=
  if n < 10 then "00" ++ toString n else if n < 100 then "0" ++ toString n else toString n

def pad4 (n : Nat) : String :=
  if n < 10 then "000" ++ toString n
  else if n < 100 then "00" ++ toString n
  else if n < 1000 then "0" ++ toString n
  else toString n

/-- `Date.prototype.toISOString` for a millisecond timestamp (years
1970..9999, the range produced by the middleware). -/
def isoOfMs (ms : Nat) : String :=
  let rem := ms % 86400000
  match civilFromDays (ms / 86400000) with
  | (y, m, d) =>
    pad4 y ++ "-" ++ pad2 m ++ "-" ++ pad2 d ++ "T" ++
    pad2 (rem / 3600000) ++ ":" ++ pad2 (rem % 3600000 / 60000) ++ ":" ++
    pad2 (rem % 60000 / 1000) ++ "." ++ pad3 (rem % 1000) ++ "Z"

/-- JSON string escaping (quote and backslash; the middleware's payloads
contain no control characters). -/
def escChar (c : Char) : String :=
  if c = '"' then "\\\"" else if c = '\\' then "\\\\" else String.singleton c

def jsonEsc (s : String) : String := String.join (s.data.map escChar)

/-- `JSON.stringify` of a single value; a `Date` serializes through its
`toJSON`, i.e. as the quoted ISO string. -/
def stringifyVal : JVal → String
  | .str s => "\"" ++ jsonEsc s ++ "\""
  | .num n => toString n
  | .boolean b => if b then "true" else "false"
  | .date ms => "\"" ++ isoOfMs ms ++ "\""

/-- `JSON.stringify` of an object: keys in insertion order. -/
def stringify (s : Sess) : String :=
  "\x7b" ++
    String.intercalate ","
      (s.map (fun kv => "\"" ++ jsonEsc kv.fst ++ "\":" ++ stringifyVal kv.snd)) ++
  "\x7d"

/-- UTF-8 encoding of one character. -/
def utf8Bytes (c : Char) : List Nat :=
  let n := c.toNat
  if n < 128 then [n]
  else if n < 2048 then [192 ||| (n >>> 6), 128 ||| (n &&& 63)]
  else if n < 65536 then
    [224 ||| (n >>> 12), 128 ||| ((n >>> 6) &&& 63), 128 ||| (n &&& 63)]
  else
    [240 ||| (n >>> 18), 128 ||| ((n >>> 12) &&& 63),
     128 ||| ((n >>> 6) &&& 63), 128 ||| (n &&& 63)]

def strBytes (s : String) : List Nat :=
  s.data.foldr (fun c acc => utf8Bytes c ++ acc) []

/-- Rotate a 32-bit word (as a Nat < 2^32) left by `k`. -/
def rotl (k n : Nat) : Nat := ((n <<< k) ||| (n >>> (32 - k))) % 4294967296

/-- Big-endian 8-byte encoding. -/
def be64 (n : Nat) : List Nat :=
  [n >>> 56 &&& 255, n >>> 48 &&& 255, n >>> 40 &&& 255, n >>> 32 &&& 255,
   n >>> 24 &&& 255, n >>> 16 &&& 255, n >>> 8 &&& 255, n &&& 255]

/-- SHA-1 message padding. -/
def sha1pad (m : List Nat) : List Nat :=
  m ++ 128 :: List.replicate ((55 + 64 - m.length % 64) % 64) 0 ++ be64 (8 * m.length)

/-- Group bytes into big-endian 32-bit words. -/
def bytesToWords : List Nat → List Nat
  | a :: b :: c :: d :: rest =>
    ((((a <<< 8) ||| b) <<< 8 ||| c) <<< 8 ||| d) :: bytesToWords rest
  | _ => []

/-- Extend a 16-word block, one schedule word per step. -/
def sha1Extend (w : List Nat) : Nat → List Nat
  | 0 => w
  | k + 1 =>
    let w1 := sha1Extend w k
    let n := w1.length
    w1 ++ [rotl 1 ((w1.getD (n - 3) 0) ^^^ (w1.getD (n - 8) 0) ^^^
      (w1.getD (n - 14) 0) ^^^ (w1.getD (n - 16) 0))]

def sha1F (i b c d : Nat) : Nat :=
  if i < 20 then (b &&& c) ||| ((4294967295 - b) &&& d)
  else if i < 40 then b ^^^ c ^^^ d
  else if i < 60 then (b &&& c) ||| (b &&& d) ||| (c &&& d)
  else b ^^^ c ^^^ d

def sha1K (i : Nat) : Nat :=
  if i < 20 then 1518500249
  else if i < 40 then 1859775393
  else if i < 60 then 2400959708
  else 3395469782

def sha1Round (w : List Nat) (st : Nat × Nat × Nat × Nat × Nat) (i : Nat) :
    Nat × Nat × Nat × Nat × Nat :=
  match st with
  | (a, b, c, d, e) =>
    ((rotl 5 a + sha1F i b c d + e + sha1K i + w.getD i 0) % 4294967296,
     a, rotl 30 b, c, d)

def sha1Block (h : Nat × Nat × Nat × Nat × Nat) (block : List Nat) :
    Nat × Nat × Nat × Nat × Nat :=
  match h, (List.range 80).foldl (sha1Round (sha1Extend block 64)) h with
  | (h0, h1, h2, h3, h4), (a, b, c, d, e) =>
    ((h0 + a) % 4294967296, (h1 + b) % 4294967296, (h2 + c) % 4294967296,
     (h3 + d) % 4294967296, (h4 + e) % 4294967296)

/-- Fold the compression function over the 16-word blocks (fuel-driven so it
reduces in the kernel). -/
def sha1Blocks : Nat → (Nat × Nat × Nat × Nat × Nat) → List Nat →
    Nat × Nat × Nat × Nat × Nat
  | 0, h, _ => h
  | _, h, [] => h
  | fuel + 1, h, ws => sha1Blocks fuel (sha1Block h (ws.take 16)) (ws.drop 16)

def hexChar (n : Nat) : Char := "0123456789abcdef".data.getD n '0'

def toHex8 (n : Nat) : String :=
  String.mk ((List.range 8).map (fun i => hexChar ((n >>> (4 * (7 - i))) &&& 15)))

/-- SHA-1 of a string (hex digest of its UTF-8 bytes), as
`crypto.createHash('sha1').update(str, 'utf8').digest('hex')`. -/
def sha1hex (s : String) : String :=
  let ws := bytesToWords (sha1pad (strBytes s))
  match sha1Blocks ws.length
      (1732584193, 4023233417, 2562383102, 271733878, 3285377520) ws with
  | (h0, h1, h2, h3, h4) =>
    toHex8 h0 ++ toHex8 h1 ++ toHex8 h2 ++ toHex8 h3 ++ toHex8 h4

/-- Source `hash`: sha1 hex digest of `JSON.stringify(session)`. -/
def hash (session : Sess) : String := sha1hex (stringify session)

/-! ## Configuration, cookies, storage, effects -/

/-- The lifecycle-relevant part of `SessionOptions` (src/types.ts).
`expiryInSeconds : number | false` is `Option Nat` (`none` = `false`,
infinite sessions); `domain : string | false` is `Option String`
(`none` = `false`). `storageOptions`, `resave`, `saveUninitialized` and
`saveAsync` never influence the middleware and are omitted. -/
structure SessionConfig where
  expiryInSeconds : Option Nat
  idLength : Nat
  cookieName : String
  cookieSameSite : String
  cookieSecure : Bool
  cookieHttpOnly : Bool
  domain : Option String
  rolling : Bool
deriving DecidableEq, Repr

/-- The attributes handed to h3's `setCookie` by `safeSetCookie`. -/
structure CookieSet where
  name : String
  value : String
  expires : Option Nat
  secure : Bool
  httpOnly : Bool
  sameSite : String
  domain : Option String
deriving DecidableEq, Repr

/-- JS `x || undefined` on a `string | false` value: `false` and the empty
string are falsy and give `undefined`. -/
def jsOrUndefined : Option String → Option String
  | some s => if s = "" then none else some s
  | none => none

/-- JS string coercion of a possibly-undefined string. -/
def jsStr : Option String → String
  | some s => s
  | none => "undefined"

/-- Source `safeSetCookie`: absolute expiration `createdAt.getTime() +
expiryInSeconds * 1000` when expiry is finite, none when `false`;
Secure/HttpOnly/SameSite copied from the config; `domain || undefined`. -/
def safeSetCookie (cfg : SessionConfig) (name value : String) (createdAt : Nat) :
    CookieSet :=
  ⟨name, value, cfg.expiryInSeconds.map (fun e => createdAt + e * 1000),
   cfg.cookieSecure, cfg.cookieHttpOnly, cfg.cookieSameSite,
   jsOrUndefined cfg.domain⟩

/-- The request's parsed Cookie header (`parseCookies`). -/
abbrev CookieJar := List (String × String)

def jarGet : CookieJar → String → Option String
  | [], _ => none
  | (k, v) :: t, key => if k = key then some v else jarGet t key

/-- Modelled from the spec: the storage adapter (`getStorageSession`,
`setStorageSession`, `dropStorageSession` live in storage.ts, which is not
under src/). The spec's Storage Adapter contract is a key-value backend
with `get(key) -> bytes|absent`, `set(key, value)`, `delete(key)`; sessions
are stored under their session id. Modelled as an association list. -/
abbrev Storage := List (String × Sess)

def storeGet : Storage → String → Option Sess
  | [], _ => none
  | (k, v) :: t, key => if k = key then some v else storeGet t key

def storeSet : Storage → String → Sess → Storage
  | [], key, v => [(key, v)]
  | (k, v1) :: t, key, v => if k = key then (k, v) :: t else (k, v1) :: storeSet t key v

def storeDrop (st : Storage) (key : String) : Storage :=
  st.filter (fun kv => !(kv.fst == key))

/-- Observable side effects of one request, in emission order. -/
inductive Eff where
  | cookieSet (c : CookieSet)
  | cookieClear (name : String)
  | storageSet (key : String) (sess : Sess)
  | storageDrop (key : String)
deriving DecidableEq, Repr

def isCookieSetEff : Eff → Bool
  | .cookieSet _ => true
  | _ => false

def isStorageSetEff : Eff → Bool
  | .storageSet _ _ => true
  | _ => false

def countCookieSets (l : List Eff) : Nat := (l.filter isCookieSetEff).length

def countStorageSets (l : List Eff) : Nat := (l.filter isStorageSetEff).length

/-! ## Request-scoped context and lifecycle state -/

/-- `event.context.sessionId` / `event.context.session`; `none` models the
field being absent (`delete event.context.sessionId`). -/
structure Ctx where
  sessionId : Option String
  session : Option Sess
deriving DecidableEq, Repr

/-- JS truthiness of `event.context.sessionId`: absent and `''` are falsy. -/
def jsTruthyId : Option String → Bool
  | some s => !(s == "")
  | none => false

/-- Source `isDestory`: `!event.context.sessionId && !event.context.session`
(any object, even `{}`, is truthy). -/
def isDestory (c : Ctx) : Bool := !jsTruthyId c.sessionId && c.session.isNone

/-- Full per-request lifecycle state threaded through the middleware:
context, backend storage, the `isTouch`/`isReNew` flags and the effect log. -/
structure RState where
  ctx : Ctx
  storage : Storage
  isTouch : Bool
  isReNew : Bool
  effs : List Eff
deriving DecidableEq, Repr

/-- Source `getCurrentSessionId`: the request cookie named
`sessionOptions.cookieName`. -/
def getCurrentSessionId (cfg : SessionConfig) (cookies : CookieJar) :
    Option String :=
  jarGet cookies cfg.cookieName

/-- Source `deleteSession`: drop the storage record keyed by the cookie's
session id when that id is truthy, clear the cookie, delete the context's
`sessionId` and `session` fields. -/
def deleteSession (cfg : SessionConfig) (cookies : CookieJar) (st : RState) :
    RState :=
  let st1 : RState :=
    match getCurrentSessionId cfg cookies with
    | some s =>
      if s = "" then st
      else ⟨st.ctx, storeDrop st.storage s, st.isTouch, st.isReNew,
            st.effs ++ [.storageDrop s]⟩
    | none => st
  ⟨⟨none, none⟩, st1.storage, st1.isTouch, st1.isReNew,
   st1.effs ++ [.cookieClear cfg.cookieName]⟩

/-- Source `createSession`: optionally replace the context session with a
copy of `initBody`, then assign a fresh id (`nanoid(idLength)`, supplied
here as the oracle `newId`) and `createdAt = new Date()` (oracle `now`). -/
def createSession (newId : String) (now : Nat) (initBody : Option Sess)
    (st : RState) : RState :=
  let sess0 :=
    match initBody with
    | some b => b
    | none => st.ctx.session.getD []
  ⟨⟨some newId, some (setKey (setKey sess0 "id" (.str newId)) "createdAt" (.date now))⟩,
   st.storage, st.isTouch, st.isReNew, st.effs⟩

/-- Source `reNewSession`: capture `{...event.context.session}` (spread of
`undefined` yields `{}`), destroy, then create seeded with the capture. -/
def reNewSession (cfg : SessionConfig) (cookies : CookieJar) (newId : String)
    (now : Nat) (st : RState) : RState :=
  let body := st.ctx.session.getD []
  createSession newId now (some body) (deleteSession cfg cookies st)

/-- Source `isSession`: an object carrying both `id` and `createdAt`. -/
def isSession : Option Sess → Bool
  | some o => hasKey o "id" && hasKey o "createdAt"
  | none => false

/-- Source `checkSessionExpirationTime` as a Bool (`true` = throws
`SessionExpired`): `dayjs(now).diff(createdAt, 'seconds') > expiry`, the
diff truncated to whole seconds. A non-date `createdAt` gives `NaN > e`,
i.e. never expires. -/
def checkSessionExpirationTime (s : Sess) (sessionExpiryInSeconds : Nat)
    (now : Nat) : Bool :=
  match lookupKey s "createdAt" with
  | some (.date ms) => (now - ms) / 1000 > sessionExpiryInSeconds
  | _ => false

/-- Source `getSession` (the resolver): cookie present and truthy, record
present, shape check, then the expiry check with eager cleanup via
`deleteSession` on expiry. Returns the resolved session and the updated
state. -/
def getSession (cfg : SessionConfig) (cookies : CookieJar) (now : Nat)
    (st : RState) : Option Sess × RState :=
  match getCurrentSessionId cfg cookies with
  | none => (none, st)
  | some sid =>
    if sid = "" then (none, st)
    else
      match storeGet st.storage sid with
      | none => (none, st)
      | some s =>
        if !(hasKey s "id" && hasKey s "createdAt") then (none, st)
        else
          match cfg.expiryInSeconds with
          | some e =>
            if checkSessionExpirationTime s e now then
              (none, deleteSession cfg cookies st)
            else (some s, st)
          | none => (some s, st)

/-- `event.context.sessionId = session.id` (nanoid ids are strings; a
non-string id never occurs because `createSession` writes strings). -/
def sessIdStr (s : Sess) : String :=
  match lookupKey s "id" with
  | some (.str v) => v
  | _ => ""

/-! ## Handler script and the two response hooks -/

/-- What the downstream handler may do during the request: the three
lifecycle operations exposed in `event.context.sessionFn`, plus payload
mutation `event.context.session[k] = v` and whole-object reassignment
`event.context.session = {...}`. `regenerate` carries the id produced by
`nanoid` and the `Date` at the call as oracles. -/
inductive HOp where
  | touch
  | destroy
  | regenerate (newId : String) (now : Nat)
  | mutate (k : String) (v : JVal)
  | assignSession (s : Sess)
deriving DecidableEq, Repr

def applyOp (cfg : SessionConfig) (cookies : CookieJar) (st : RState) :
    HOp → RState
  | .touch => ⟨st.ctx, st.storage, true, st.isReNew, st.effs⟩
  | .destroy => deleteSession cfg cookies st
  | .regenerate nid t =>
    let st1 := reNewSession cfg cookies nid t st
    ⟨st1.ctx, st1.storage, st1.isTouch, true, st1.effs⟩
  | .mutate k v =>
    match st.ctx.session with
    | some s => ⟨⟨st.ctx.sessionId, some (setKey s k v)⟩, st.storage,
                 st.isTouch, st.isReNew, st.effs⟩
    | none => st
  | .assignSession s => ⟨⟨st.ctx.sessionId, some s⟩, st.storage,
                         st.isTouch, st.isReNew, st.effs⟩

def applyOps (cfg : SessionConfig) (cookies : CookieJar) (st : RState)
    (ops : List HOp) : RState :=
  ops.foldl (applyOp cfg cookies) st

/-- The pre-handler snapshot `preSessionId` / `preSessionHash`. -/
structure Snap where
  preId : Option String
  preHash : String
deriving DecidableEq, Repr

def hashCtx (c : Ctx) : String := hash (c.session.getD [])

def preSnap (st : RState) : Snap := ⟨st.ctx.sessionId, hashCtx st.ctx⟩

/-- Source `isModified`, with the post-snapshot variables possibly still
unassigned (`none` = `undefined`; a string is never `!==`-equal to
`undefined`). -/
def isModified (pre : Snap) (postId : Option String) (postHash : Option String) :
    Bool :=
  pre.preId != postId || some pre.preHash != postHash

/-- `event.context.session.createdAt` as a millisecond timestamp. -/
def ctxCreatedAtMs (c : Ctx) : Nat :=
  match lookupKey (c.session.getD []) "createdAt" with
  | some (.date ms) => ms
  | _ => 0

/-- The `onHeaders` hook: skip when destroyed; otherwise capture the post
snapshot, then either initialize-and-set-cookie (Init mode) or
refresh-createdAt-and-set-cookie (Active mode) per the decision table.
Returns the updated state and the shared `postSessionId`/`postSessionHash`
variables read later by the finish hook. -/
def onHeadersHook (cfg : SessionConfig) (isInit : Bool) (pre : Snap)
    (hdrId : String) (nowH : Nat) (st : RState) :
    RState × Option String × Option String :=
  if isDestory st.ctx then (st, none, none)
  else
    let postId := st.ctx.sessionId
    let postHash := hashCtx st.ctx
    let mod := isModified pre postId (some postHash)
    if isInit then
      if mod || st.isTouch then
        let st1 := createSession hdrId nowH none st
        (⟨st1.ctx, st1.storage, st1.isTouch, st1.isReNew,
          st1.effs ++ [.cookieSet (safeSetCookie cfg cfg.cookieName
            (jsStr st1.ctx.sessionId) (ctxCreatedAtMs st1.ctx))]⟩,
         postId, some postHash)
      else (st, postId, some postHash)
    else
      if cfg.rolling || (cfg.expiryInSeconds.isSome && (mod || st.isTouch)) ||
          (st.isReNew && (mod || st.isTouch)) then
        let sess1 := setKey (st.ctx.session.getD []) "createdAt" (.date nowH)
        (⟨⟨st.ctx.sessionId, some sess1⟩, st.storage, st.isTouch, st.isReNew,
          st.effs ++ [.cookieSet (safeSetCookie cfg cfg.cookieName
            (jsStr st.ctx.sessionId) nowH)]⟩,
         postId, some postHash)
      else (st, postId, some postHash)

/-- The `res.on('finish')` hook: skip when destroyed; otherwise persist the
current session under the current id when modified or touched (the Init and
Active branches of the source are syntactically separate but identical). -/
def onFinishHook (isInit : Bool) (pre : Snap) (postId : Option String)
    (postHash : Option String) (st : RState) : RState :=
  if isDestory st.ctx then st
  else
    let mod := isModified pre postId postHash
    let key := jsStr st.ctx.sessionId
    let sess := st.ctx.session.getD []
    if isInit then
      if mod || st.isTouch then
        ⟨st.ctx, storeSet st.storage key sess, st.isTouch, st.isReNew,
         st.effs ++ [.storageSet key sess]⟩
      else st
    else
      if mod || st.isTouch then
        ⟨st.ctx, storeSet st.storage key sess, st.isTouch, st.isReNew,
         st.effs ++ [.storageSet key sess]⟩
      else st

/-! ## The whole request pipeline -/

/-- Handler phase plus the header-emission hook. -/
def runSeededHeaders (cfg : SessionConfig) (cookies : CookieJar) (isInit : Bool)
    (st0 : RState) (ops : List HOp) (hdrId : String) (nowH : Nat) :
    RState × Option String × Option String :=
  onHeadersHook cfg isInit (preSnap st0) hdrId nowH (applyOps cfg cookies st0 ops)

/-- Handler phase, header-emission hook, body-completion hook, from a seeded
request state. -/
def runSeeded (cfg : SessionConfig) (cookies : CookieJar) (isInit : Bool)
    (st0 : RState) (ops : List HOp) (hdrId : String) (nowH : Nat) : RState :=
  match runSeededHeaders cfg cookies isInit st0 ops hdrId nowH with
  | (st2, postId, postHash) => onFinishHook isInit (preSnap st0) postId postHash st2

/-- Resolution and seeding of `event.context` at request start: Active mode
(`isInit = false`) when the resolver returned a session, Init mode with
id `''` and payload `\x7b\x7d` otherwise. -/
def seedRequest (cfg : SessionConfig) (cookies : CookieJar) (storage0 : Storage)
    (now : Nat) : Bool × RState :=
  match getSession cfg cookies now ⟨⟨none, none⟩, storage0, false, false, []⟩ with
  | (some s, st1) =>
    (false, ⟨⟨some (sessIdStr s), some s⟩, st1.storage, false, false, st1.effs⟩)
  | (none, st1) =>
    (true, ⟨⟨some "", some []⟩, st1.storage, false, false, st1.effs⟩)

/-- One full request/response cycle of the middleware. -/
def runRequest (cfg : SessionConfig) (cookies : CookieJar) (storage0 : Storage)
    (now : Nat) (ops : List HOp) (hdrId : String) (nowH : Nat) : RState :=
  match seedRequest cfg cookies storage0 now with
  | (isInit, st0) => runSeeded cfg cookies isInit st0 ops hdrId nowH

set_option maxRecDepth 400000

/-! ## Helper lemmas -/

theorem countCookieSets_append (a b : List Eff) :
    countCookieSets (a ++ b) = countCookieSets a + countCookieSets b := by
  simp [countCookieSets, List.filter_append]

theorem countStorageSets_append (a b : List Eff) :
    countStorageSets (a ++ b) = countStorageSets a + countStorageSets b := by
  simp [countStorageSets, List.filter_append]

theorem deleteSession_ctx (cfg : SessionConfig) (cookies : CookieJar)
    (st : RState) : (deleteSession cfg cookies st).ctx = ⟨none, none⟩ := rfl

theorem deleteSession_cookieSets (cfg : SessionConfig) (cookies : CookieJar)
    (st : RState) :
    countCookieSets (deleteSession cfg cookies st).effs = countCookieSets st.effs := by
  unfold deleteSession
  cases h : getCurrentSessionId cfg cookies with
  | none => simp [countCookieSets_append, countCookieSets, isCookieSetEff]
  | some s =>
    by_cases hs : s = "" <;>
      simp [hs, countCookieSets_append, countCookieSets, isCookieSetEff]

theorem deleteSession_storageSets (cfg : SessionConfig) (cookies : CookieJar)
    (st : RState) :
    countStorageSets (deleteSession cfg cookies st).effs = countStorageSets st.effs := by
  unfold deleteSession
  cases h : getCurrentSessionId cfg cookies with
  | none => simp [countStorageSets_append, countStorageSets, isStorageSetEff]
  | some s =>
    by_cases hs : s = "" <;>
      simp [hs, countStorageSets_append, countStorageSets, isStorageSetEff]

theorem createSession_effs (newId : String) (now : Nat) (initBody : Option Sess)
    (st : RState) : (createSession newId now initBody st).effs = st.effs := rfl

theorem reNewSession_effs (cfg : SessionConfig) (cookies : CookieJar)
    (newId : String) (now : Nat) (st : RState) :
    (reNewSession cfg cookies newId now st).effs =
      (deleteSession cfg cookies st).effs := rfl

theorem applyOp_cookieSets (cfg : SessionConfig) (cookies : CookieJar)
    (st : RState) (op : HOp) :
    countCookieSets (applyOp cfg cookies st op).effs = countCookieSets st.effs := by
  cases op with
  | touch => rfl
  | destroy => exact deleteSession_cookieSets cfg cookies st
  | regenerate nid t =>
    show countCookieSets (reNewSession cfg cookies nid t st).effs = _
    rw [reNewSession_effs, deleteSession_cookieSets]
  | mutate k v =>
    simp only [applyOp]
    cases h : st.ctx.session <;> simp [h]
  | assignSession s => rfl

theorem applyOp_storageSets (cfg : SessionConfig) (cookies : CookieJar)
    (st : RState) (op : HOp) :
    countStorageSets (applyOp cfg cookies st op).effs = countStorageSets st.effs := by
  cases op with
  | touch => rfl
  | destroy => exact deleteSession_storageSets cfg cookies st
  | regenerate nid t =>
    show countStorageSets (reNewSession cfg cookies nid t st).effs = _
    rw [reNewSession_effs, deleteSession_storageSets]
  | mutate k v =>
    simp only [applyOp]
    cases h : st.ctx.session <;> simp [h]
  | assignSession s => rfl

theorem applyOps_cookieSets (cfg : SessionConfig) (cookies : CookieJar)
    (ops : List HOp) (st : RState) :
    countCookieSets (applyOps cfg cookies st ops).effs = countCookieSets st.effs := by
  induction ops generalizing st with
  | nil => rfl
  | cons op t ih =>
    show countCookieSets (applyOps cfg cookies (applyOp cfg cookies st op) t).effs = _
    rw [ih, applyOp_cookieSets]

theorem applyOps_storageSets (cfg : SessionConfig) (cookies : CookieJar)
    (ops : List HOp) (st : RState) :
    countStorageSets (applyOps cfg cookies st ops).effs = countStorageSets st.effs := by
  induction ops generalizing st with
  | nil => rfl
  | cons op t ih =>
    show countStorageSets (applyOps cfg cookies (applyOp cfg cookies st op) t).effs = _
    rw [ih, applyOp_storageSets]

theorem applyOps_append (cfg : SessionConfig) (cookies : CookieJar)
    (st : RState) (l1 l2 : List HOp) :
    applyOps cfg cookies st (l1 ++ l2) = applyOps cfg cookies (applyOps cfg cookies st l1) l2 := by
  simp [applyOps, List.foldl_append]

theorem onHeadersHook_storageSets (cfg : SessionConfig) (isInit : Bool)
    (pre : Snap) (hdrId : String) (nowH : Nat) (st : RState) :
    countStorageSets (onHeadersHook cfg isInit pre hdrId nowH st).1.effs =
      countStorageSets st.effs := by
  unfold onHeadersHook
  split
  · rfl
  · dsimp only
    split
    · split
      · simp [createSession_effs, countStorageSets, List.filter_append, isStorageSetEff]
      · rfl
    · split
      · simp [countStorageSets, List.filter_append, isStorageSetEff]
      · rfl

theorem onFinishHook_storageSets_le (isInit : Bool) (pre : Snap)
    (postId postHash : Option String) (st : RState) :
    countStorageSets (onFinishHook isInit pre postId postHash st).effs ≤
      countStorageSets st.effs + 1 := by
  unfold onFinishHook
  split
  · exact Nat.le_succ_of_le (Nat.le_refl _)
  · dsimp only
    split
    · split
      · simp [countStorageSets, List.filter_append, isStorageSetEff]
      · exact Nat.le_succ_of_le (Nat.le_refl _)
    · split
      · simp [countStorageSets, List.filter_append, isStorageSetEff]
      · exact Nat.le_succ_of_le (Nat.le_refl _)

theorem storeGet_storeDrop (st : Storage) (k : String) :
    storeGet (storeDrop st k) k = none := by
  induction st with
  | nil => rfl
  | cons kv t ih =>
    cases kv with
    | mk k1 v1 =>
      simp only [storeDrop] at ih
      by_cases h : k1 = k
      · simp [storeDrop, List.filter_cons, h, ih]
      · simp [storeDrop, List.filter_cons, h, storeGet, ih]

theorem lookupKey_setKey_self (s : Sess) (k : String) (v : JVal) :
    lookupKey (setKey s k v) k = some v := by
  induction s with
  | nil => simp [setKey, lookupKey]
  | cons kv t ih =>
    cases kv with
    | mk k1 v1 =>
      by_cases h : k1 = k
      · simp [setKey, h, lookupKey]
      · simp [setKey, h, lookupKey, ih]

theorem lookupKey_setKey_ne (s : Sess) (k k2 : String) (v : JVal)
    (h : k2 ≠ k) : lookupKey (setKey s k v) k2 = lookupKey s k2 := by
  have hk : ¬ k = k2 := fun hh => h hh.symm
  induction s with
  | nil => simp [setKey, lookupKey, hk]
  | cons kv t ih =>
    cases kv with
    | mk k1 v1 =>
      by_cases h1 : k1 = k
      · subst h1
        simp [setKey, lookupKey, hk]
      · simp [setKey, h1, lookupKey, ih]

/-! ## Resolver characterization -/

theorem getSession_valid_eq (cfg : SessionConfig) (cookies : CookieJar)
    (now : Nat) (st : RState) (sid : String) (s : Sess) (e ms : Nat)
    (hc : getCurrentSessionId cfg cookies = some sid) (hsid : sid ≠ "")
    (hst : storeGet st.storage sid = some s)
    (hid : hasKey s "id" = true)
    (hca : lookupKey s "createdAt" = some (.date ms))
    (hexp : cfg.expiryInSeconds = some e)
    (hage : (now - ms) / 1000 ≤ e) :
    getSession cfg cookies now st = (some s, st) := by
  obtain ⟨vid, hvid⟩ := Option.isSome_iff_exists.mp (by simpa [hasKey] using hid)
  simp only [getSession, hc, hst, hexp]
  rw [if_neg hsid]
  simp [hasKey, hca, hvid, checkSessionExpirationTime, Nat.not_lt.mpr hage]

theorem getSession_expired_eq (cfg : SessionConfig) (cookies : CookieJar)
    (now : Nat) (st : RState) (sid : String) (s : Sess) (e ms : Nat)
    (hc : getCurrentSessionId cfg cookies = some sid) (hsid : sid ≠ "")
    (hst : storeGet st.storage sid = some s)
    (hid : hasKey s "id" = true)
    (hca : lookupKey s "createdAt" = some (.date ms))
    (hexp : cfg.expiryInSeconds = some e)
    (hage : (now - ms) / 1000 > e) :
    getSession cfg cookies now st = (none, deleteSession cfg cookies st) := by
  obtain ⟨vid, hvid⟩ := Option.isSome_iff_exists.mp (by simpa [hasKey] using hid)
  simp only [getSession, hc, hst, hexp]
  rw [if_neg hsid]
  simp [hasKey, hca, hvid, checkSessionExpirationTime, hage]

theorem getSession_snd_or (cfg : SessionConfig) (cookies : CookieJar)
    (now : Nat) (st : RState) :
    (getSession cfg cookies now st).2 = st ∨
    (getSession cfg cookies now st).2 = deleteSession cfg cookies st := by
  unfold getSession
  cases getCurrentSessionId cfg cookies with
  | none => exact Or.inl rfl
  | some sid =>
    dsimp only
    split
    · exact Or.inl rfl
    · cases storeGet st.storage sid with
      | none => exact Or.inl rfl
      | some s =>
        dsimp only
        split
        · exact Or.inl rfl
        · cases cfg.expiryInSeconds with
          | none => exact Or.inl rfl
          | some e =>
            dsimp only
            split
            · exact Or.inr rfl
            · exact Or.inl rfl

/-- C3: a stored session whose age in whole seconds exceeds the finite
expiry D is not returned by resolution; its storage record is deleted and
its cookie cleared as a side effect. -/
theorem expired_session_cleanup (cfg : SessionConfig) (cookies : CookieJar)
    (storage0 : Storage) (now : Nat) (sid : String) (s : Sess) (e ms : Nat)
    (hc : getCurrentSessionId cfg cookies = some sid) (hsid : sid ≠ "")
    (hst : storeGet storage0 sid = some s)
    (hid : hasKey s "id" = true)
    (hca : lookupKey s "createdAt" = some (.date ms))
    (hexp : cfg.expiryInSeconds = some e)
    (hage : (now - ms) / 1000 > e) :
    (getSession cfg cookies now ⟨⟨none, none⟩, storage0, false, false, []⟩).1 = none ∧
    storeGet (getSession cfg cookies now ⟨⟨none, none⟩, storage0, false, false, []⟩).2.storage sid = none ∧
    Eff.storageDrop sid ∈ (getSession cfg cookies now ⟨⟨none, none⟩, storage0, false, false, []⟩).2.effs ∧
    Eff.cookieClear cfg.cookieName ∈ (getSession cfg cookies now ⟨⟨none, none⟩, storage0, false, false, []⟩).2.effs := by
  rw [getSession_expired_eq cfg cookies now _ sid s e ms hc hsid hst hid hca hexp hage]
  refine ⟨rfl, ?_, ?_, ?_⟩
  · simp only [deleteSession, hc]
    rw [if_neg hsid]
    exact storeGet_storeDrop storage0 sid
  · simp [deleteSession, hc, hsid]
  · simp [deleteSession, hc, hsid]

theorem expired_session_cleanup_witness :
    (getSession ⟨some 600, 64, "sessionId", "lax", true, true, none, false⟩
      [("sessionId", "sid1")] 601000
      ⟨⟨none, none⟩, [("sid1", [("id", .str "sid1"), ("createdAt", .date 0)])],
       false, false, []⟩).1 = none ∧
    storeGet (getSession ⟨some 600, 64, "sessionId", "lax", true, true, none, false⟩
      [("sessionId", "sid1")] 601000
      ⟨⟨none, none⟩, [("sid1", [("id", .str "sid1"), ("createdAt", .date 0)])],
       false, false, []⟩).2.storage "sid1" = none ∧
    Eff.storageDrop "sid1" ∈ (getSession ⟨some 600, 64, "sessionId", "lax", true, true, none, false⟩
      [("sessionId", "sid1")] 601000
      ⟨⟨none, none⟩, [("sid1", [("id", .str "sid1"), ("createdAt", .date 0)])],
       false, false, []⟩).2.effs ∧
    Eff.cookieClear "sessionId" ∈ (getSession ⟨some 600, 64, "sessionId", "lax", true, true, none, false⟩
      [("sessionId", "sid1")] 601000
      ⟨⟨none, none⟩, [("sid1", [("id", .str "sid1"), ("createdAt", .date 0)])],
       false, false, []⟩).2.effs :=
  expired_session_cleanup _ _ _ 601000 "sid1" _ 600 0 rfl (by decide) rfl rfl rfl rfl
    (by decide)

/-- C9: the expiry comparison is strict: a session whose age in whole
seconds is not greater than D (in particular exactly D) is returned to the
handler, with no cleanup side effect at all. -/
theorem expiry_check_strict (cfg : SessionConfig) (cookies : CookieJar)
    (storage0 : Storage) (now : Nat) (sid : String) (s : Sess) (e ms : Nat)
    (hc : getCurrentSessionId cfg cookies = some sid) (hsid : sid ≠ "")
    (hst : storeGet storage0 sid = some s)
    (hid : hasKey s "id" = true)
    (hca : lookupKey s "createdAt" = some (.date ms))
    (hexp : cfg.expiryInSeconds = some e)
    (hage : (now - ms) / 1000 ≤ e) :
    getSession cfg cookies now ⟨⟨none, none⟩, storage0, false, false, []⟩ =
      (some s, ⟨⟨none, none⟩, storage0, false, false, []⟩) :=
  getSession_valid_eq cfg cookies now _ sid s e ms hc hsid hst hid hca hexp hage

theorem expiry_check_strict_witness :
    getSession ⟨some 600, 64, "sessionId", "lax", true, true, none, false⟩
      [("sessionId", "sid1")] 600000
      ⟨⟨none, none⟩, [("sid1", [("id", .str "sid1"), ("createdAt", .date 0)])],
       false, false, []⟩ =
      (some [("id", .str "sid1"), ("createdAt", .date 0)],
       ⟨⟨none, none⟩, [("sid1", [("id", .str "sid1"), ("createdAt", .date 0)])],
        false, false, []⟩) :=
  expiry_check_strict _ _ _ 600000 "sid1" _ 600 0 rfl (by decide) rfl rfl rfl rfl
    (by decide)

theorem countCookieSets_cookieSet (c : CookieSet) :
    countCookieSets [Eff.cookieSet c] = 1 := rfl

theorem countCookieSets_storageSet (k : String) (s : Sess) :
    countCookieSets [Eff.storageSet k s] = 0 := rfl

theorem countStorageSets_cookieSet (c : CookieSet) :
    countStorageSets [Eff.cookieSet c] = 0 := rfl

theorem countStorageSets_storageSet (k : String) (s : Sess) :
    countStorageSets [Eff.storageSet k s] = 1 := rfl

/-- Whatever the request looks like, the seeded context always carries a
present `sessionId` and a present `session` object, the lifecycle flags
start false, and resolution has emitted no cookie or storage writes. -/
theorem seedRequest_shape (cfg : SessionConfig) (cookies : CookieJar)
    (storage0 : Storage) (now : Nat) :
    ∃ b sid sess stg effs0,
      seedRequest cfg cookies storage0 now =
        (b, ⟨⟨some sid, some sess⟩, stg, false, false, effs0⟩) ∧
      countCookieSets effs0 = 0 ∧ countStorageSets effs0 = 0 := by
  have h := getSession_snd_or cfg cookies now ⟨⟨none, none⟩, storage0, false, false, []⟩
  have hcc : countCookieSets
      (getSession cfg cookies now ⟨⟨none, none⟩, storage0, false, false, []⟩).2.effs = 0 := by
    rcases h with h | h
    · rw [h]; rfl
    · rw [h, deleteSession_cookieSets]; rfl
  have hcs : countStorageSets
      (getSession cfg cookies now ⟨⟨none, none⟩, storage0, false, false, []⟩).2.effs = 0 := by
    rcases h with h | h
    · rw [h]; rfl
    · rw [h, deleteSession_storageSets]; rfl
  unfold seedRequest
  rcases hg : getSession cfg cookies now ⟨⟨none, none⟩, storage0, false, false, []⟩ with ⟨res, st1⟩
  rw [hg] at hcc hcs
  rcases res with _ | s
  · exact ⟨true, "", [], st1.storage, st1.effs, rfl, hcc, hcs⟩
  · exact ⟨false, sessIdStr s, s, st1.storage, st1.effs, rfl, hcc, hcs⟩

/-- C7: an Active-mode request (valid resolved session), rolling disabled,
finite expiry, no lifecycle operation and no mutation: no cookie write, no
storage write, and the stored record is untouched. -/
theorem active_unchanged_frame (cfg : SessionConfig) (cookies : CookieJar)
    (storage0 : Storage) (now : Nat) (sid : String) (s : Sess) (e ms : Nat)
    (hdrId : String) (nowH : Nat)
    (hc : getCurrentSessionId cfg cookies = some sid) (hsid : sid ≠ "")
    (hst : storeGet storage0 sid = some s)
    (hid : hasKey s "id" = true)
    (hca : lookupKey s "createdAt" = some (.date ms))
    (hexp : cfg.expiryInSeconds = some e)
    (hage : (now - ms) / 1000 ≤ e)
    (hroll : cfg.rolling = false) :
    (runRequest cfg cookies storage0 now [] hdrId nowH).effs = [] ∧
    (runRequest cfg cookies storage0 now [] hdrId nowH).storage = storage0 := by
  have hv := getSession_valid_eq cfg cookies now ⟨⟨none, none⟩, storage0, false, false, []⟩
    sid s e ms hc hsid hst hid hca hexp hage
  have hseed : seedRequest cfg cookies storage0 now =
      (false, ⟨⟨some (sessIdStr s), some s⟩, storage0, false, false, []⟩) := by
    simp [seedRequest, hv]
  constructor <;>
  · simp only [runRequest, hseed]
    simp [runSeeded, runSeededHeaders, applyOps, List.foldl, onHeadersHook,
      isDestory, jsTruthyId, preSnap, hashCtx, isModified, hroll, hexp,
      onFinishHook]

theorem active_unchanged_frame_witness :
    (runRequest ⟨some 600, 64, "sessionId", "lax", true, true, none, false⟩
      [("sessionId", "sid1")] [("sid1", [("id", .str "sid1"), ("createdAt", .date 0)])]
      1000 [] "h1" 2000).effs = [] ∧
    (runRequest ⟨some 600, 64, "sessionId", "lax", true, true, none, false⟩
      [("sessionId", "sid1")] [("sid1", [("id", .str "sid1"), ("createdAt", .date 0)])]
      1000 [] "h1" 2000).storage =
      [("sid1", [("id", .str "sid1"), ("createdAt", .date 0)])] :=
  active_unchanged_frame _ _ _ 1000 "sid1" _ 600 0 "h1" 2000 rfl (by decide) rfl rfl
    rfl rfl (by decide) rfl

/-- From any seeded request state, a handler that only calls `touch()`
always gets exactly one storage write, and gets a cookie write exactly when
the request is Init-mode, or rolling is on, or the expiry is finite. -/
theorem runSeeded_touch_counts (cfg : SessionConfig) (cookies : CookieJar)
    (b : Bool) (sid : String) (sess : Sess) (stg : Storage) (effs0 : List Eff)
    (hdrId : String) (nowH : Nat)
    (hcc : countCookieSets effs0 = 0) (hcs : countStorageSets effs0 = 0) :
    countStorageSets (runSeeded cfg cookies b
      ⟨⟨some sid, some sess⟩, stg, false, false, effs0⟩ [.touch] hdrId nowH).effs = 1 ∧
    countCookieSets (runSeeded cfg cookies b
      ⟨⟨some sid, some sess⟩, stg, false, false, effs0⟩ [.touch] hdrId nowH).effs =
      (if b || cfg.rolling || cfg.expiryInSeconds.isSome then 1 else 0) := by
  cases b <;> cases hr : cfg.rolling <;> rcases he : cfg.expiryInSeconds with _ | e <;>
    simp [runSeeded, runSeededHeaders, applyOps, List.foldl, applyOp, preSnap,
      hashCtx, onHeadersHook, onFinishHook, isDestory, jsTruthyId, isModified,
      createSession, hr, he, countCookieSets_append, countStorageSets_append,
      countCookieSets_cookieSet, countCookieSets_storageSet,
      countStorageSets_cookieSet, countStorageSets_storageSet, hcc, hcs]
  all_goals exact ⟨rfl, rfl⟩

/-! ## Concrete example inputs used by counterexamples and witnesses -/

/-- Default-like configuration with finite expiry 600s, rolling off. -/
def cfgFinEx : SessionConfig := ⟨some 600, 64, "sessionId", "lax", true, true, none, false⟩

/-- Same configuration but with infinite sessions (`expiryInSeconds: false`). -/
def cfgInfEx : SessionConfig := ⟨none, 64, "sessionId", "lax", true, true, none, false⟩

def sessEx : Sess := [("id", .str "sid1"), ("createdAt", .date 0)]

def jarEx : CookieJar := [("sessionId", "sid1")]

def stgEx : Storage := [("sid1", sessEx)]

/-- C1 (amended): a handler that only calls `touch()` always gets exactly
one storage write; it gets a cookie write exactly when the request is in
Init mode, or rolling is enabled, or the expiry is finite — an Active-mode
request with infinite expiry and rolling disabled gets no cookie write. -/
theorem touch_write_behaviour (cfg : SessionConfig) (cookies : CookieJar)
    (storage0 : Storage) (now : Nat) (hdrId : String) (nowH : Nat) :
    countStorageSets (runRequest cfg cookies storage0 now [.touch] hdrId nowH).effs = 1 ∧
    countCookieSets (runRequest cfg cookies storage0 now [.touch] hdrId nowH).effs =
      (if (seedRequest cfg cookies storage0 now).1 || cfg.rolling ||
          cfg.expiryInSeconds.isSome then 1 else 0) := by
  obtain ⟨b, sid, sess, stg, effs0, hseed, hcc, hcs⟩ :=
    seedRequest_shape cfg cookies storage0 now
  have h := runSeeded_touch_counts cfg cookies b sid sess stg effs0 hdrId nowH hcc hcs
  simp only [runRequest, hseed]
  exact ⟨h.1, h.2⟩

/-- C1 counterexample: Active mode, `rolling=false`, infinite expiry,
handler calls `touch()` only — the storage write happens but no cookie is
written, contradicting the claim that both writes occur regardless of mode,
rolling and expiry. -/
theorem touch_infinite_active_no_cookie :
    countCookieSets (runRequest cfgInfEx jarEx stgEx 1000 [.touch] "h1" 2000).effs = 0 ∧
    countStorageSets (runRequest cfgInfEx jarEx stgEx 1000 [.touch] "h1" 2000).effs = 1 := by
  decide

/-- C6: the storage-write count up to and including header-emission time is
zero, and over the whole request it is at most one: at most one
`setStorageSession` call per request, and only at body-completion time. -/
theorem at_most_one_storage_write (cfg : SessionConfig) (cookies : CookieJar)
    (storage0 : Storage) (now : Nat) (ops : List HOp) (hdrId : String) (nowH : Nat) :
    countStorageSets (runSeededHeaders cfg cookies
      (seedRequest cfg cookies storage0 now).1
      (seedRequest cfg cookies storage0 now).2 ops hdrId nowH).1.effs = 0 ∧
    countStorageSets (runRequest cfg cookies storage0 now ops hdrId nowH).effs ≤ 1 := by
  obtain ⟨b, sid, sess, stg, effs0, hseed, hcc, hcs⟩ :=
    seedRequest_shape cfg cookies storage0 now
  have hzero : ∀ st0 : RState, countStorageSets st0.effs = 0 →
      countStorageSets (runSeededHeaders cfg cookies b st0 ops hdrId nowH).1.effs = 0 := by
    intro st0 h0
    unfold runSeededHeaders
    rw [onHeadersHook_storageSets, applyOps_storageSets]
    exact h0
  constructor
  · rw [hseed]
    exact hzero _ hcs
  · simp only [runRequest, hseed]
    have hz := hzero ⟨⟨some sid, some sess⟩, stg, false, false, effs0⟩ hcs
    rcases hh : runSeededHeaders cfg cookies b
        ⟨⟨some sid, some sess⟩, stg, false, false, effs0⟩ ops hdrId nowH with
      ⟨st2, postId, postHash⟩
    rw [hh] at hz
    simp only [runSeeded, hh]
    calc countStorageSets (onFinishHook b
          (preSnap ⟨⟨some sid, some sess⟩, stg, false, false, effs0⟩)
          postId postHash st2).effs
        ≤ countStorageSets st2.effs + 1 := onFinishHook_storageSets_le _ _ _ _ _
      _ = 1 := by rw [show countStorageSets st2.effs = 0 from hz]

/-- C2 (amended): when `destroy()` is the last thing the handler does to
the session (no later mutation or reassignment), the context stays
destroyed and neither a cookie write nor a storage write is emitted for the
rest of the request. -/
theorem destroy_last_no_writes (cfg : SessionConfig) (cookies : CookieJar)
    (storage0 : Storage) (now : Nat) (opsPre : List HOp) (hdrId : String)
    (nowH : Nat) :
    countCookieSets (runRequest cfg cookies storage0 now
      (opsPre ++ [.destroy]) hdrId nowH).effs = 0 ∧
    countStorageSets (runRequest cfg cookies storage0 now
      (opsPre ++ [.destroy]) hdrId nowH).effs = 0 := by
  obtain ⟨b, sid, sess, stg, effs0, hseed, hcc, hcs⟩ :=
    seedRequest_shape cfg cookies storage0 now
  simp only [runRequest, hseed]
  have hops : applyOps cfg cookies ⟨⟨some sid, some sess⟩, stg, false, false, effs0⟩
      (opsPre ++ [.destroy]) =
      deleteSession cfg cookies
        (applyOps cfg cookies ⟨⟨some sid, some sess⟩, stg, false, false, effs0⟩ opsPre) := by
    rw [applyOps_append]; rfl
  have hdest : isDestory (applyOps cfg cookies
      ⟨⟨some sid, some sess⟩, stg, false, false, effs0⟩ (opsPre ++ [.destroy])).ctx = true := by
    rw [hops, deleteSession_ctx]; rfl
  have hccA : countCookieSets (applyOps cfg cookies
      ⟨⟨some sid, some sess⟩, stg, false, false, effs0⟩ (opsPre ++ [.destroy])).effs = 0 := by
    rw [applyOps_cookieSets]; exact hcc
  have hcsA : countStorageSets (applyOps cfg cookies
      ⟨⟨some sid, some sess⟩, stg, false, false, effs0⟩ (opsPre ++ [.destroy])).effs = 0 := by
    rw [applyOps_storageSets]; exact hcs
  have hH : runSeededHeaders cfg cookies b
      ⟨⟨some sid, some sess⟩, stg, false, false, effs0⟩ (opsPre ++ [.destroy]) hdrId nowH =
      (applyOps cfg cookies ⟨⟨some sid, some sess⟩, stg, false, false, effs0⟩
        (opsPre ++ [.destroy]), none, none) := by
    unfold runSeededHeaders onHeadersHook
    rw [if_pos hdest]
  simp only [runSeeded, hH, onFinishHook]
  rw [if_pos hdest]
  exact ⟨hccA, hcsA⟩

/-- C2 counterexample: existing valid session; the handler calls
`destroy()` and then reassigns the session payload to `\x7bfoo: 1\x7d`.
Because the destroyed-check requires both context fields to be falsy, the
reassignment resurrects the context: a cookie write and a storage write are
both emitted, contradicting the claim that no write can occur after
`destroy()` even if the handler mutates or reassigns the payload. -/
theorem destroy_then_reassign_writes :
    countCookieSets (runRequest cfgFinEx jarEx stgEx 1000
      [.destroy, .assignSession [("foo", .num 1)]] "h1" 2000).effs = 1 ∧
    countStorageSets (runRequest cfgFinEx jarEx stgEx 1000
      [.destroy, .assignSession [("foo", .num 1)]] "h1" 2000).effs = 1 := by
  decide

/-- C4: `regenerate()` (given the nanoid contract that the generated id
differs from the prior context id) assigns a fresh id, preserves every
payload pair except the overwritten `id`/`createdAt`, and the request ends
with exactly one cookie write and one storage write in both modes, whatever
rolling and expiry are, even though the payload fingerprint is otherwise
unchanged. -/
theorem regenerate_semantics (cfg : SessionConfig) (cookies : CookieJar)
    (b : Bool) (sid0 : String) (s0 : Sess) (stg : Storage) (nid : String)
    (t : Nat) (hdrId : String) (nowH : Nat) (hfresh : nid ≠ sid0) :
    (applyOp cfg cookies ⟨⟨some sid0, some s0⟩, stg, false, false, []⟩
      (.regenerate nid t)).ctx.sessionId = some nid ∧
    (∀ k, k ≠ "id" → k ≠ "createdAt" →
      lookupKey ((applyOp cfg cookies ⟨⟨some sid0, some s0⟩, stg, false, false, []⟩
        (.regenerate nid t)).ctx.session.getD []) k = lookupKey s0 k) ∧
    lookupKey ((applyOp cfg cookies ⟨⟨some sid0, some s0⟩, stg, false, false, []⟩
      (.regenerate nid t)).ctx.session.getD []) "id" = some (.str nid) ∧
    lookupKey ((applyOp cfg cookies ⟨⟨some sid0, some s0⟩, stg, false, false, []⟩
      (.regenerate nid t)).ctx.session.getD []) "createdAt" = some (.date t) ∧
    countCookieSets (runSeeded cfg cookies b
      ⟨⟨some sid0, some s0⟩, stg, false, false, []⟩ [.regenerate nid t] hdrId nowH).effs = 1 ∧
    countStorageSets (runSeeded cfg cookies b
      ⟨⟨some sid0, some s0⟩, stg, false, false, []⟩ [.regenerate nid t] hdrId nowH).effs = 1 := by
  have hccD : countCookieSets (deleteSession cfg cookies
      ⟨⟨some sid0, some s0⟩, stg, false, false, []⟩).effs = 0 := by
    rw [deleteSession_cookieSets]; rfl
  have hcsD : countStorageSets (deleteSession cfg cookies
      ⟨⟨some sid0, some s0⟩, stg, false, false, []⟩).effs = 0 := by
    rw [deleteSession_storageSets]; rfl
  refine ⟨rfl, ?_, ?_, ?_, ?_⟩
  · intro k hk1 hk2
    show lookupKey (setKey (setKey s0 "id" (.str nid)) "createdAt" (.date t)) k =
      lookupKey s0 k
    rw [lookupKey_setKey_ne _ _ _ _ hk2, lookupKey_setKey_ne _ _ _ _ hk1]
  · show lookupKey (setKey (setKey s0 "id" (.str nid)) "createdAt" (.date t)) "id" =
      some (.str nid)
    rw [lookupKey_setKey_ne _ _ _ _ (by decide), lookupKey_setKey_self]
  · exact lookupKey_setKey_self _ _ _
  · have hfs : sid0 ≠ nid := fun hh => hfresh hh.symm
    cases b <;>
      simp [runSeeded, runSeededHeaders, applyOps, List.foldl, applyOp,
        reNewSession, createSession, preSnap, hashCtx, onHeadersHook,
        onFinishHook, isDestory, jsTruthyId, isModified, hfs,
        countCookieSets_append, countStorageSets_append,
        countCookieSets_cookieSet, countCookieSets_storageSet,
        countStorageSets_cookieSet, countStorageSets_storageSet, hccD, hcsD]
    all_goals exact ⟨rfl, rfl⟩

theorem regenerate_semantics_witness :
    (applyOp cfgInfEx jarEx
      ⟨⟨some "sid1", some [("id", .str "sid1"), ("createdAt", .date 0), ("foo", .str "bar")]⟩,
       stgEx, false, false, []⟩ (.regenerate "nid9" 1500)).ctx.sessionId = some "nid9" ∧
    lookupKey ((applyOp cfgInfEx jarEx
      ⟨⟨some "sid1", some [("id", .str "sid1"), ("createdAt", .date 0), ("foo", .str "bar")]⟩,
       stgEx, false, false, []⟩ (.regenerate "nid9" 1500)).ctx.session.getD []) "foo" =
      some (.str "bar") ∧
    countCookieSets (runSeeded cfgInfEx jarEx false
      ⟨⟨some "sid1", some [("id", .str "sid1"), ("createdAt", .date 0), ("foo", .str "bar")]⟩,
       stgEx, false, false, []⟩ [.regenerate "nid9" 1500] "h1" 2000).effs = 1 ∧
    countStorageSets (runSeeded cfgInfEx jarEx false
      ⟨⟨some "sid1", some [("id", .str "sid1"), ("createdAt", .date 0), ("foo", .str "bar")]⟩,
       stgEx, false, false, []⟩ [.regenerate "nid9" 1500] "h1" 2000).effs = 1 :=
  ⟨(regenerate_semantics cfgInfEx jarEx false "sid1" _ stgEx "nid9" 1500 "h1" 2000
      (by decide)).1,
   (regenerate_semantics cfgInfEx jarEx false "sid1" _ stgEx "nid9" 1500 "h1" 2000
      (by decide)).2.1 "foo" (by decide) (by decide),
   (regenerate_semantics cfgInfEx jarEx false "sid1" _ stgEx "nid9" 1500 "h1" 2000
      (by decide)).2.2.2.2.1,
   (regenerate_semantics cfgInfEx jarEx false "sid1" _ stgEx "nid9" 1500 "h1" 2000
      (by decide)).2.2.2.2.2⟩

/-! ## Fingerprint order sensitivity -/

def sessOrdA : Sess := [("id", .str "a"), ("createdAt", .date 0), ("x", .num 1), ("y", .num 2)]

def sessOrdB : Sess := [("y", .num 2), ("x", .num 1), ("createdAt", .date 0), ("id", .str "a")]

/-- C5 counterexample: two session objects (with `id` and `createdAt`)
that are equal as key/value maps but enumerate their keys in different
orders get different sha1 digests, because `JSON.stringify` serializes in
insertion order. -/
theorem fingerprint_order_dependent :
    eqAsMaps sessOrdA sessOrdB = true ∧ ¬ (hash sessOrdA = hash sessOrdB) := by
  decide

/-- C5 (amended): the fingerprint is a deterministic function of the
ordered serialization of the session, but it is key-order-sensitive:
map-equal sessions with different key orders can get different digests. -/
theorem fingerprint_deterministic_order_sensitive :
    (∀ s1 s2 : Sess, stringify s1 = stringify s2 → hash s1 = hash s2) ∧
    (eqAsMaps sessOrdA sessOrdB = true ∧ hash sessOrdA ≠ hash sessOrdB) := by
  refine ⟨fun s1 s2 h => ?_, by decide⟩
  show sha1hex (stringify s1) = sha1hex (stringify s2)
  rw [h]

theorem fingerprint_deterministic_order_sensitive_witness :
    hash sessOrdA = hash sessOrdA ∧ hash sessOrdA ≠ hash sessOrdB :=
  ⟨fingerprint_deterministic_order_sensitive.1 sessOrdA sessOrdA rfl,
   fingerprint_deterministic_order_sensitive.2.2⟩

/-! ## Cookie writer attributes -/

/-- Finite-expiry configuration whose domain is the empty string (a valid
`string | false` value that is not `false`). -/
def cfgDomEx : SessionConfig := ⟨some 600, 64, "sessionId", "lax", true, true, some "", false⟩

/-- C8 counterexample: with `domain` configured as the empty string (not
`false`), the cookie writer still omits the Domain attribute, because the
source computes `domain: sessionOptions.domain || undefined` and `''` is
falsy — so "omitted exactly when configured domain is false" fails. -/
theorem safeSetCookie_empty_domain_omitted :
    (safeSetCookie cfgDomEx "sessionId" "v" 0).domain = none ∧
    cfgDomEx.domain ≠ none := by decide

/-- C8 (amended): the emitted cookie's expiration is exactly
`createdAt + expiryInSeconds` when the expiry is finite and absent when it
is `false`; Secure, HttpOnly and SameSite equal the configured values; and
the Domain attribute is omitted exactly when the configured domain is
`false` or the empty string (both JS-falsy). -/
theorem safeSetCookie_attributes (cfg : SessionConfig) (name value : String)
    (createdAt : Nat) :
    (∀ e, cfg.expiryInSeconds = some e →
      (safeSetCookie cfg name value createdAt).expires = some (createdAt + e * 1000)) ∧
    (cfg.expiryInSeconds = none →
      (safeSetCookie cfg name value createdAt).expires = none) ∧
    (safeSetCookie cfg name value createdAt).secure = cfg.cookieSecure ∧
    (safeSetCookie cfg name value createdAt).httpOnly = cfg.cookieHttpOnly ∧
    (safeSetCookie cfg name value createdAt).sameSite = cfg.cookieSameSite ∧
    ((safeSetCookie cfg name value createdAt).domain = none ↔
      cfg.domain = none ∨ cfg.domain = some "") := by
  refine ⟨fun e he => by simp [safeSetCookie, he],
    fun he => by simp [safeSetCookie, he], rfl, rfl, rfl, ?_⟩
  rcases hd : cfg.domain with _ | d
  · simp [safeSetCookie, jsOrUndefined, hd]
  · by_cases hdd : d = "" <;> simp [safeSetCookie, jsOrUndefined, hd, hdd]

theorem safeSetCookie_attributes_witness :
    (safeSetCookie cfgFinEx "sessionId" "v" 100).expires = some (100 + 600 * 1000) ∧
    (safeSetCookie cfgInfEx "sessionId" "v" 100).expires = none ∧
    ((safeSetCookie cfgFinEx "sessionId" "v" 100).domain = none ↔
      cfgFinEx.domain = none ∨ cfgFinEx.domain = some "") :=
  ⟨(safeSetCookie_attributes cfgFinEx "sessionId" "v" 100).1 600 rfl,
   (safeSetCookie_attributes cfgInfEx "sessionId" "v" 100).2.1 rfl,
   (safeSetCookie_attributes cfgFinEx "sessionId" "v" 100).2.2.2.2.2⟩

/-! ## destroy() storage key -/

/-- A request state whose context id differs from the id in the request
cookie (as happens after `regenerate`). -/
def stDemoEx : RState := ⟨⟨some "other", some sessEx⟩, stgEx, false, false, []⟩

/-- C10: `deleteSession` drops the storage record keyed by the id found in
the request cookie (`getCurrentSessionId`), not by the context's current
id; with no (truthy) session cookie it performs no storage delete at all
but still clears the cookie and both context fields. -/
theorem deleteSession_keyed_by_cookie (cfg : SessionConfig)
    (cookies : CookieJar) (st : RState) :
    (deleteSession cfg cookies st).ctx.sessionId = none ∧
    (deleteSession cfg cookies st).ctx.session = none ∧
    (∀ sid, getCurrentSessionId cfg cookies = some sid → sid ≠ "" →
      (deleteSession cfg cookies st).storage = storeDrop st.storage sid ∧
      (deleteSession cfg cookies st).effs =
        st.effs ++ [.storageDrop sid, .cookieClear cfg.cookieName]) ∧
    (getCurrentSessionId cfg cookies = none →
      (deleteSession cfg cookies st).storage = st.storage ∧
      (deleteSession cfg cookies st).effs = st.effs ++ [.cookieClear cfg.cookieName]) := by
  refine ⟨rfl, rfl, ?_, ?_⟩
  · intro sid hs hne
    simp [deleteSession, hs, hne]
  · intro hnone
    simp [deleteSession, hnone]

theorem deleteSession_keyed_by_cookie_witness :
    (deleteSession cfgFinEx jarEx stDemoEx).storage = storeDrop stDemoEx.storage "sid1" ∧
    (deleteSession cfgFinEx [] stDemoEx).storage = stDemoEx.storage ∧
    (deleteSession cfgFinEx [] stDemoEx).ctx.sessionId = none ∧
    (deleteSession cfgFinEx [] stDemoEx).effs =
      stDemoEx.effs ++ [.cookieClear "sessionId"] :=
  ⟨((deleteSession_keyed_by_cookie cfgFinEx jarEx stDemoEx).2.2.1 "sid1" rfl
      (by decide)).1,
   ((deleteSession_keyed_by_cookie cfgFinEx [] stDemoEx).2.2.2 rfl).1,
   (deleteSession_keyed_by_cookie cfgFinEx [] stDemoEx).1,
   ((deleteSession_keyed_by_cookie cfgFinEx [] stDemoEx).2.2.2 rfl).2⟩
